import Mathlib

/-!
Verification of the personalized-recommendation aggregation and scoring
pipeline of a movie-discovery backend.  The source is a Go service
(`recommendation-service`); the definitions below are a shallow embedding of
its `internal/service/recommendation_service.go`,
`internal/handler/recommendation_handler.go` and
`internal/repository/recommendation_repository.go`.

Modelling conventions:
* Go `float64` values (popularity, weights, scores) are embedded as `ℚ`.
* Go `int` is embedded as `ℤ` (no overflow is reachable in these claims).
* Network calls, redis, clock and JSON codecs are environment oracles
  (`Env`, `CatalogEnv`): each upstream call is a function of the request in
  the environment returning `Except`/`Option`, exactly mirroring which Go
  errors are possible at each call site.
* `sort.Slice` is embedded by a faithful port of Go's pattern-defeating
  quicksort (`sort/zsortfunc.go`, Go ≥ 1.19), which is what `sort.Slice`
  runs; it is deterministic, so the embedding reproduces the exact output
  order of the Go code, including its treatment of equal keys.
-/

namespace MovieRec

attribute [local semireducible] Rat.mul Rat.inv Rat.add Rat.sub

/-- RecommendationRule mirrors `models.RecommendationRule` (id, name, weight,
rule_type, is_active; created_at omitted as inert data). -/
structure RecommendationRule where
  id : Int
  name : String
  weight : ℚ
  ruleType : String
  isActive : Bool
deriving DecidableEq, Repr, Inhabited

/-- MovieListItem mirrors `models.MovieListItem` (a summary row of the
catalog list endpoint). -/
structure MovieListItem where
  id : Int
  title : String
  releaseDate : String
  popularity : ℚ
  posterUrl : String
deriving DecidableEq, Repr, Inhabited

/-- MovieListResponse mirrors `models.MovieListResponse`. -/
structure MovieListResponse where
  page : Int
  pageSize : Int
  totalPages : Int
  totalResults : Int
  data : List MovieListItem
deriving DecidableEq, Repr, Inhabited

/-- MovieDetail mirrors `models.MovieDetail`. -/
structure MovieDetail where
  id : Int
  title : String
  overview : String
  releaseDate : String
  genres : List String
  language : String
  duration : Int
  popularity : ℚ
  posterUrl : String
  backdropUrl : String
deriving DecidableEq, Repr, Inhabited

/-- UserPreference mirrors `models.UserPreference`. -/
structure UserPreference where
  userId : Int
  preferredGenres : List String
  preferredLanguage : String
  minRating : ℚ
deriving DecidableEq, Repr, Inhabited

/-- MovieRecommendation mirrors `models.MovieRecommendation`. -/
structure MovieRecommendation where
  id : Int
  title : String
  releaseDate : String
  genres : List String
  popularity : ℚ
  posterUrl : String
  score : ℚ
  reason : String
deriving DecidableEq, Repr, Inhabited

/-- RecommendationResponse mirrors `models.RecommendationResponse`. -/
structure RecommendationResponse where
  userId : Int
  recommendations : List MovieRecommendation
  generatedAt : String
deriving DecidableEq, Repr, Inhabited

/-- Default profile substituted by `GetRecommendations` when the preference
fetch fails (`recommendation_service.go:58-62`): zero values for the fields
the Go code does not set. -/
def defaultPrefs (userID : Int) : UserPreference :=
  { userId := userID, preferredGenres := [], preferredLanguage := "", minRating := 0 }

/-- goRound embeds Go `math.Round`: round half away from zero. -/
def goRound (x : ℚ) : ℤ :=
  if x < 0 then -(⌊-x + 1/2⌋) else ⌊x + 1/2⌋

/-- goRound4 embeds `math.Round(x*10000)/10000` from `scoreMovies`
(`recommendation_service.go:180`). -/
def goRound4 (x : ℚ) : ℚ :=
  (goRound (x * 10000) : ℚ) / 10000

/-- ruleWeight embeds the `ruleWeights` Go map built in `scoreMovies`
(`recommendation_service.go:126-129`): iterating the rule list and writing
`ruleWeights[r.RuleType] = r.Weight` means the last rule of a given type
wins, i.e. lookup finds the last matching element. -/
def ruleWeight (rules : List RecommendationRule) (t : String) : Option ℚ :=
  (rules.reverse.find? (fun r => r.ruleType == t)).map (fun r => r.weight)

/-- maxPopularity embeds the max-popularity scan of `scoreMovies`
(`recommendation_service.go:131-137`): fold starting from 0, updating on
strict increase. -/
def maxPopularity (movies : List MovieDetail) : ℚ :=
  movies.foldl (fun acc m => if m.popularity > acc then m.popularity else acc) 0

/-- popDivisor embeds the division-by-zero guard
(`recommendation_service.go:138-140`): if the max popularity is 0, divide
by 1 instead. -/
def popDivisor (movies : List MovieDetail) : ℚ :=
  if maxPopularity movies = 0 then 1 else maxPopularity movies

/-- normalizedPop is the normalized popularity `m.Popularity / maxPop` used
by the popularity component (`recommendation_service.go:153`). -/
def normalizedPop (movies : List MovieDetail) (m : MovieDetail) : ℚ :=
  m.popularity / popDivisor movies

/-- computeRecencyScore embeds `computeRecencyScore`
(`recommendation_service.go:202-217`).  Date parsing and the clock are an
oracle `daysSinceOf` giving, for a release-date string, `none` when
`time.Parse` fails and otherwise `some d` where `d` is the (possibly
negative, possibly fractional) number of days elapsed since the release. -/
def computeRecencyScore (daysSinceOf : String → Option ℚ) (releaseDate : String) : ℚ :=
  match daysSinceOf releaseDate with
  | none => 0
  | some d =>
    let daysSince := if d < 0 then 0 else d
    let score := 1 - daysSince / 730
    if score < 0 then 0 else score

/-- goToLower embeds Go `strings.ToLower` on the character level (ASCII
case mapping, which is the only case folding genre strings exercise):
lower-case every character of the string. -/
def goToLower (s : String) : String :=
  ⟨s.data.map Char.toLower⟩

/-- computeGenreMatchScore embeds `computeGenreMatchScore`
(`recommendation_service.go:219-230`).  `prefSet` is the lower-cased
preferred-genre set built by `scoreMovies`; membership of a movie genre is
tested on its lower-cased form. -/
def computeGenreMatchScore (movieGenres : List String) (prefSet : List String) : ℚ :=
  if movieGenres.length = 0 then 0
  else
    let matchCount :=
      movieGenres.foldl (fun acc g => if prefSet.contains (goToLower g) then acc + 1 else acc)
        (0 : ℕ)
    (matchCount : ℚ) / (movieGenres.length : ℚ)

/-- scoreOne embeds the per-movie body of the scoring loop of `scoreMovies`
(`recommendation_service.go:147-196`): sequentially add the popularity,
recency and genre-match components that have an active rule, collect reason
tags in the same order, round to 4 decimals, and join the reasons. -/
def scoreOne (daysSinceOf : String → Option ℚ) (rules : List RecommendationRule)
    (maxPopAdj : ℚ) (prefSet : List String) (m : MovieDetail) : MovieRecommendation :=
  let acc0 : ℚ × List String := (0, [])
  let acc1 :=
    match ruleWeight rules "popularity" with
    | some w =>
      let popScore := m.popularity / maxPopAdj
      (acc0.1 + popScore * w,
       if popScore > 7/10 then acc0.2 ++ ["highly popular"] else acc0.2)
    | none => acc0
  let acc2 :=
    match ruleWeight rules "recency" with
    | some w =>
      let recencyScore := computeRecencyScore daysSinceOf m.releaseDate
      (acc1.1 + recencyScore * w,
       if recencyScore > 7/10 then acc1.2 ++ ["recently released"] else acc1.2)
    | none => acc1
  let acc3 :=
    match ruleWeight rules "genre_match" with
    | some w =>
      if prefSet.length > 0 then
        let genreScore := computeGenreMatchScore m.genres prefSet
        (acc2.1 + genreScore * w,
         if genreScore > 0 then acc2.2 ++ ["matches your preferred genres"] else acc2.2)
      else acc2
    | none => acc2
  let totalScore := goRound4 acc3.1
  let reason := if acc3.2 = [] then "recommended for you" else String.intercalate ", " acc3.2
  { id := m.id, title := m.title, releaseDate := m.releaseDate, genres := m.genres,
    popularity := m.popularity, posterUrl := m.posterUrl, score := totalScore,
    reason := reason }

/-- scoreMovies embeds `scoreMovies` (`recommendation_service.go:120-200`). -/
def scoreMovies (daysSinceOf : String → Option ℚ) (movies : List MovieDetail)
    (prefs : UserPreference) (rules : List RecommendationRule) :
    List MovieRecommendation :=
  let maxPopAdj := popDivisor movies
  let prefSet := prefs.preferredGenres.map goToLower
  movies.map (scoreOne daysSinceOf rules maxPopAdj prefSet)

/-!
Port of Go's `sort.Slice` (pattern-defeating quicksort, `sort/zsortfunc.go`,
Go ≥ 1.19).  `sort.Slice(x, less)` runs `pdqsort_func(lessSwap{less, swap},
0, length, bits.Len(uint(length)))`.  The algorithm is deterministic (its
"random" pattern breaker is an xorshift generator seeded with the slice
length), so this port reproduces the Go output order element for element.
General recursion is expressed with an explicit fuel parameter; every entry
point supplies fuel exceeding the worst-case iteration count, so the
fuel-exhausted branches are unreachable.  Array accesses are embedded
bounds-checked (`aget`, `aset`); all indices produced by the algorithm are
in range, where Go would otherwise panic.
-/

/-- aget is a total array read (out-of-range reads return `default`;
unreachable in the ported algorithm). -/
def aget {α : Type} [Inhabited α] (arr : Array α) (i : ℕ) : α :=
  if h : i < arr.size then arr.get ⟨i, h⟩ else default

/-- aset is a total array write (out-of-range writes are dropped;
unreachable in the ported algorithm). -/
def aset {α : Type} (arr : Array α) (i : ℕ) (v : α) : Array α :=
  if h : i < arr.size then arr.set ⟨i, h⟩ v else arr

/-- aswap embeds `data.Swap(i, j)`. -/
def aswap {α : Type} [Inhabited α] (arr : Array α) (i j : ℕ) : Array α :=
  let x := aget arr i
  let y := aget arr j
  aset (aset arr i y) j x

/-- ltAt embeds `data.Less(i, j)`. -/
def ltAt {α : Type} [Inhabited α] (lt : α → α → Bool) (arr : Array α) (i j : ℕ) : Bool :=
  lt (aget arr i) (aget arr j)

/-- insertionSortInner is the inner loop of Go `insertionSort_func`:
`for j := i; j > a && data.Less(j, j-1); j-- { data.Swap(j, j-1) }`. -/
def insertionSortInner {α : Type} [Inhabited α] (lt : α → α → Bool) (a : ℕ) :
    ℕ → Array α → Array α
  | 0, arr => arr
  | j + 1, arr =>
    if a < j + 1 && ltAt lt arr (j + 1) j then
      insertionSortInner lt a j (aswap arr (j + 1) j)
    else arr

/-- insertionSortOuter is the outer loop of Go `insertionSort_func`:
`for i := a + 1; i < b; i++`. -/
def insertionSortOuter {α : Type} [Inhabited α] (lt : α → α → Bool) (a b : ℕ) :
    ℕ → ℕ → Array α → Array α
  | 0, _, arr => arr
  | fuel + 1, i, arr =>
    if i < b then insertionSortOuter lt a b fuel (i + 1) (insertionSortInner lt a i arr)
    else arr

/-- insertionSortGo embeds Go `insertionSort_func(data, a, b)`. -/
def insertionSortGo {α : Type} [Inhabited α] (lt : α → α → Bool) (arr : Array α)
    (a b : ℕ) : Array α :=
  insertionSortOuter lt a b (b + 1) (a + 1) arr

/-- siftDownGo embeds Go `siftDown_func(data, lo, hi, first)` with `root`
starting at `lo`. -/
def siftDownGo {α : Type} [Inhabited α] (lt : α → α → Bool) :
    ℕ → Array α → ℕ → ℕ → ℕ → Array α
  | 0, arr, _, _, _ => arr
  | fuel + 1, arr, root, hi, first =>
    let child := 2 * root + 1
    if child ≥ hi then arr
    else
      let child :=
        if child + 1 < hi && ltAt lt arr (first + child) (first + child + 1) then child + 1
        else child
      if !(ltAt lt arr (first + root) (first + child)) then arr
      else siftDownGo lt fuel (aswap arr (first + root) (first + child)) child hi first

/-- heapBuild is the heap-construction loop of Go `heapSort_func`:
`for i := (hi - 1) / 2; i >= 0; i--`; the counter argument is `i + 1`. -/
def heapBuild {α : Type} [Inhabited α] (lt : α → α → Bool) (hi first : ℕ) :
    ℕ → Array α → Array α
  | 0, arr => arr
  | c + 1, arr => heapBuild lt hi first c (siftDownGo lt (hi + 1) arr c hi first)

/-- heapPop is the extraction loop of Go `heapSort_func`:
`for i := hi - 1; i >= 0; i-- { data.Swap(first, first+i); siftDown(data, lo, i, first) }`;
the counter argument is `i + 1`. -/
def heapPop {α : Type} [Inhabited α] (lt : α → α → Bool) (first : ℕ) :
    ℕ → Array α → Array α
  | 0, arr => arr
  | c + 1, arr =>
    heapPop lt first c (siftDownGo lt (c + 1) (aswap arr first (first + c)) 0 c first)

/-- heapSortGo embeds Go `heapSort_func(data, a, b)`. -/
def heapSortGo {α : Type} [Inhabited α] (lt : α → α → Bool) (arr : Array α)
    (a b : ℕ) : Array α :=
  let first := a
  let hi := b - a
  heapPop lt first hi (heapBuild lt hi first ((hi - 1) / 2 + 1) arr)

/-- reverseRangeGo embeds Go `reverseRange_func(data, a, b)` (called here
with the two inclusive endpoints `i = a`, `j = b - 1`). -/
def reverseRangeGo {α : Type} [Inhabited α] : ℕ → Array α → ℕ → ℕ → Array α
  | 0, arr, _, _ => arr
  | fuel + 1, arr, i, j =>
    if i < j then reverseRangeGo fuel (aswap arr i j) (i + 1) (j - 1) else arr

/-- pisScan is the scanning loop of Go `partialInsertionSort_func`:
`for i < b && !data.Less(i, i-1) { i++ }`. -/
def pisScan {α : Type} [Inhabited α] (lt : α → α → Bool) (b : ℕ) (arr : Array α) :
    ℕ → ℕ → ℕ
  | 0, i => i
  | fuel + 1, i =>
    if i < b && !(ltAt lt arr i (i - 1)) then pisScan lt b arr fuel (i + 1) else i

/-- pisShiftLeft is the left-shifting loop of Go `partialInsertionSort_func`:
`for j := i - 1; j >= 1; j-- { if !data.Less(j, j-1) break; data.Swap(j, j-1) }`;
the argument is the current `j`. -/
def pisShiftLeft {α : Type} [Inhabited α] (lt : α → α → Bool) : ℕ → Array α → Array α
  | 0, arr => arr
  | j + 1, arr =>
    if ltAt lt arr (j + 1) j then pisShiftLeft lt j (aswap arr (j + 1) j) else arr

/-- pisShiftRight is the right-shifting loop of Go
`partialInsertionSort_func`:
`for j := i + 1; j < b; j++ { if !data.Less(j, j-1) break; data.Swap(j, j-1) }`. -/
def pisShiftRight {α : Type} [Inhabited α] (lt : α → α → Bool) (b : ℕ) :
    ℕ → ℕ → Array α → Array α
  | 0, _, arr => arr
  | fuel + 1, j, arr =>
    if j < b && ltAt lt arr j (j - 1) then pisShiftRight lt b fuel (j + 1) (aswap arr j (j - 1))
    else arr

/-- partialInsertionSortLoop is the step loop of Go
`partialInsertionSort_func` (`maxSteps = 5`, `shortestShifting = 50`). -/
def partialInsertionSortLoop {α : Type} [Inhabited α] (lt : α → α → Bool) (a b : ℕ) :
    ℕ → ℕ → Array α → Bool × Array α
  | 0, _, arr => (false, arr)
  | steps + 1, i, arr =>
    let i := pisScan lt b arr (b + 1) i
    if i = b then (true, arr)
    else if b - a < 50 then (false, arr)
    else
      let arr := aswap arr i (i - 1)
      let arr := if i - a ≥ 2 then pisShiftLeft lt (i - 1) arr else arr
      let arr := if b - i ≥ 2 then pisShiftRight lt b (b + 1) (i + 1) arr else arr
      partialInsertionSortLoop lt a b steps i arr

/-- partialInsertionSortGo embeds Go `partialInsertionSort_func(data, a, b)`. -/
def partialInsertionSortGo {α : Type} [Inhabited α] (lt : α → α → Bool)
    (arr : Array α) (a b : ℕ) : Bool × Array α :=
  partialInsertionSortLoop lt a b 5 (a + 1) arr

/-- xorshiftNext embeds one step of Go's `xorshift` generator (64-bit state):
`*r ^= *r << 13; *r ^= *r >> 7; *r ^= *r << 17`. -/
def xorshiftNext (r : ℕ) : ℕ :=
  let m := 2 ^ 64
  let r := (r ^^^ (r <<< 13)) % m
  let r := (r ^^^ (r >>> 7)) % m
  (r ^^^ (r <<< 17)) % m

/-- bitsLenAux computes the binary length by structural recursion on a fuel
argument (`fuel ≥ n` suffices since the argument halves). -/
def bitsLenAux : ℕ → ℕ → ℕ
  | 0, _ => 0
  | fuel + 1, n => if n = 0 then 0 else bitsLenAux fuel (n / 2) + 1

/-- bitsLen embeds Go `bits.Len(uint(n))`: the number of bits required to
represent `n`; 0 for `n = 0`. -/
def bitsLen (n : ℕ) : ℕ :=
  bitsLenAux (n + 1) n

/-- nextPowerOfTwoGo embeds Go `nextPowerOfTwo(length) = 1 << bits.Len(uint(length))`. -/
def nextPowerOfTwoGo (len : ℕ) : ℕ :=
  1 <<< bitsLen len

/-- breakPatternsStep performs one iteration `i` of the swap loop of Go
`breakPatterns_func`, threading the xorshift state. -/
def breakPatternsStep {α : Type} [Inhabited α] (a len modulus idx i : ℕ)
    (st : ℕ × Array α) : ℕ × Array α :=
  let r := xorshiftNext st.1
  let other := r % modulus
  let other := if other ≥ len then other - len else other
  (r, aswap st.2 (idx - 1 + i) (a + other))

/-- breakPatternsGo embeds Go `breakPatterns_func(data, a, b)`: when the
range has length ≥ 8, swap three elements around position
`a + (length/4)*2 - 1` with pseudo-randomly chosen ones (xorshift seeded
with the length, masked by the next power of two). -/
def breakPatternsGo {α : Type} [Inhabited α] (arr : Array α) (a b : ℕ) : Array α :=
  let len := b - a
  if len ≥ 8 then
    let modulus := nextPowerOfTwoGo len
    let idx := a + (len / 4) * 2 - 1
    (breakPatternsStep a len modulus idx 2
      (breakPatternsStep a len modulus idx 1
        (breakPatternsStep a len modulus idx 0 (len % 2 ^ 64, arr)))).2
  else arr

/-- SortedHint mirrors Go's `sortedHint` (`unknownHint`, `increasingHint`,
`decreasingHint`). -/
inductive SortedHint where
  | increasing : SortedHint
  | decreasing : SortedHint
  | unknown : SortedHint
deriving DecidableEq, Repr

/-- order2Go embeds Go `order2_func(data, a, b, &swaps)`: returns the two
indices in sorted position and the updated swap count. -/
def order2Go {α : Type} [Inhabited α] (lt : α → α → Bool) (arr : Array α)
    (a b swaps : ℕ) : ℕ × ℕ × ℕ :=
  if ltAt lt arr b a then (b, a, swaps + 1) else (a, b, swaps)

/-- medianGo embeds Go `median_func(data, a, b, c, &swaps)`: index of the
median of three, with the updated swap count. -/
def medianGo {α : Type} [Inhabited α] (lt : α → α → Bool) (arr : Array α)
    (a b c swaps : ℕ) : ℕ × ℕ :=
  let p1 := order2Go lt arr a b swaps
  let p2 := order2Go lt arr p1.2.1 c p1.2.2
  let p3 := order2Go lt arr p1.1 p2.1 p2.2.2
  (p3.2.1, p3.2.2)

/-- medianAdjacentGo embeds Go `medianAdjacent_func(data, a, &swaps)` =
`median(a-1, a, a+1)`. -/
def medianAdjacentGo {α : Type} [Inhabited α] (lt : α → α → Bool) (arr : Array α)
    (a swaps : ℕ) : ℕ × ℕ :=
  medianGo lt arr (a - 1) a (a + 1) swaps

/-- choosePivotGo embeds Go `choosePivot_func(data, a, b)` (`shortestNinther
= 50`, `maxSwaps = 12`): median-of-three (ninther for long ranges) and a
sortedness hint derived from the swap count. -/
def choosePivotGo {α : Type} [Inhabited α] (lt : α → α → Bool) (arr : Array α)
    (a b : ℕ) : ℕ × SortedHint :=
  let l := b - a
  let i0 := a + (l / 4) * 1
  let j0 := a + (l / 4) * 2
  let k0 := a + (l / 4) * 3
  let js : ℕ × ℕ :=
    if l ≥ 8 then
      if l ≥ 50 then
        let pi := medianAdjacentGo lt arr i0 0
        let pj := medianAdjacentGo lt arr j0 pi.2
        let pk := medianAdjacentGo lt arr k0 pj.2
        medianGo lt arr pi.1 pj.1 pk.1 pk.2
      else medianGo lt arr i0 j0 k0 0
    else (j0, 0)
  if js.2 = 0 then (js.1, SortedHint.increasing)
  else if js.2 = 12 then (js.1, SortedHint.decreasing)
  else (js.1, SortedHint.unknown)

/-- partSkipI is `for i <= j && data.Less(i, a) { i++ }` in Go
`partition_func` (the array is not modified while skipping). -/
def partSkipI {α : Type} [Inhabited α] (lt : α → α → Bool) (arr : Array α) (a j : ℕ) :
    ℕ → ℕ → ℕ
  | 0, i => i
  | fuel + 1, i =>
    if i ≤ j && ltAt lt arr i a then partSkipI lt arr a j fuel (i + 1) else i

/-- partSkipJ is `for i <= j && !data.Less(j, a) { j-- }` in Go
`partition_func`. -/
def partSkipJ {α : Type} [Inhabited α] (lt : α → α → Bool) (arr : Array α) (a i : ℕ) :
    ℕ → ℕ → ℕ
  | 0, j => j
  | fuel + 1, j =>
    if i ≤ j && !(ltAt lt arr j a) then partSkipJ lt arr a i fuel (j - 1) else j

/-- partLoop is the main exchange loop of Go `partition_func`. -/
def partLoop {α : Type} [Inhabited α] (lt : α → α → Bool) (a : ℕ) :
    ℕ → ℕ → ℕ → Array α → ℕ × Array α
  | 0, _, j, arr => (j, arr)
  | fuel + 1, i, j, arr =>
    let i := partSkipI lt arr a j (j + 2) i
    let j := partSkipJ lt arr a i (j + 2) j
    if i > j then (j, arr)
    else partLoop lt a fuel (i + 1) (j - 1) (aswap arr i j)

/-- partitionGo embeds Go `partition_func(data, a, b, pivot)`: Hoare-style
partition after moving the pivot to position `a`; returns the final pivot
position, the `alreadyPartitioned` flag, and the permuted array. -/
def partitionGo {α : Type} [Inhabited α] (lt : α → α → Bool) (arr0 : Array α)
    (a b pivot : ℕ) : ℕ × Bool × Array α :=
  let arr := aswap arr0 a pivot
  let i := partSkipI lt arr a (b - 1) (b + 2) (a + 1)
  let j := partSkipJ lt arr a i (b + 2) (b - 1)
  if i > j then (j, true, aswap arr j a)
  else
    let arr := aswap arr i j
    let p := partLoop lt a (b + 2) (i + 1) (j - 1) arr
    (p.1, false, aswap p.2 p.1 a)

/-- peSkipI is `for i <= j && !data.Less(a, i) { i++ }` in Go
`partitionEqual_func`. -/
def peSkipI {α : Type} [Inhabited α] (lt : α → α → Bool) (arr : Array α) (a j : ℕ) :
    ℕ → ℕ → ℕ
  | 0, i => i
  | fuel + 1, i =>
    if i ≤ j && !(ltAt lt arr a i) then peSkipI lt arr a j fuel (i + 1) else i

/-- peSkipJ is `for i <= j && data.Less(a, j) { j-- }` in Go
`partitionEqual_func`. -/
def peSkipJ {α : Type} [Inhabited α] (lt : α → α → Bool) (arr : Array α) (a i : ℕ) :
    ℕ → ℕ → ℕ
  | 0, j => j
  | fuel + 1, j =>
    if i ≤ j && ltAt lt arr a j then peSkipJ lt arr a i fuel (j - 1) else j

/-- peLoop is the exchange loop of Go `partitionEqual_func`; it returns the
final `i` and the permuted array. -/
def peLoop {α : Type} [Inhabited α] (lt : α → α → Bool) (a : ℕ) :
    ℕ → ℕ → ℕ → Array α → ℕ × Array α
  | 0, i, _, arr => (i, arr)
  | fuel + 1, i, j, arr =>
    let i := peSkipI lt arr a j (j + 2) i
    let j := peSkipJ lt arr a i (j + 2) j
    if i > j then (i, arr)
    else peLoop lt a fuel (i + 1) (j - 1) (aswap arr i j)

/-- partitionEqualGo embeds Go `partitionEqual_func(data, a, b, pivot)`. -/
def partitionEqualGo {α : Type} [Inhabited α] (lt : α → α → Bool) (arr0 : Array α)
    (a b pivot : ℕ) : ℕ × Array α :=
  let arr := aswap arr0 a pivot
  peLoop lt a (b + 2) (a + 1) (b - 1) arr

/-- pdqsortLoop embeds Go `pdqsort_func(data, a, b, limit)`
(`maxInsertion = 12`).  The `for` loop of the Go function is expressed by
tail recursion carrying `wasBalanced` and `wasPartitioned`; the recursive
call on the shorter half re-enters with both flags `true`, exactly as a
fresh Go call does. -/
def pdqsortLoop {α : Type} [Inhabited α] (lt : α → α → Bool) :
    ℕ → Array α → ℕ → ℕ → ℕ → Bool → Bool → Array α
  | 0, arr, _, _, _, _, _ => arr
  | fuel + 1, arr, a, b, limit, wasBalanced, wasPartitioned =>
    let length := b - a
    if length ≤ 12 then insertionSortGo lt arr a b
    else if limit = 0 then heapSortGo lt arr a b
    else
      let st : Array α × ℕ :=
        if !wasBalanced then (breakPatternsGo arr a b, limit - 1) else (arr, limit)
      let arr := st.1
      let limit := st.2
      let ph := choosePivotGo lt arr a b
      let st2 : Array α × ℕ × SortedHint :=
        if ph.2 = SortedHint.decreasing then
          (reverseRangeGo (b + 1) arr a (b - 1), (b - 1) - (ph.1 - a), SortedHint.increasing)
        else (arr, ph.1, ph.2)
      let arr := st2.1
      let pivot := st2.2.1
      let hint := st2.2.2
      let pis : Bool × Array α :=
        if wasBalanced && wasPartitioned && decide (hint = SortedHint.increasing) then
          partialInsertionSortGo lt arr a b
        else (false, arr)
      if pis.1 then pis.2
      else
        let arr := pis.2
        if decide (0 < a) && !(ltAt lt arr (a - 1) pivot) then
          let pe := partitionEqualGo lt arr a b pivot
          pdqsortLoop lt fuel pe.2 pe.1 b limit wasBalanced wasPartitioned
        else
          let pr := partitionGo lt arr a b pivot
          let mid := pr.1
          let wasPartitioned := pr.2.1
          let arr := pr.2.2
          let leftLen := mid - a
          let rightLen := b - mid
          let balanceThreshold := length / 8
          let wasBalanced := decide (min leftLen rightLen ≥ balanceThreshold)
          if leftLen < rightLen then
            let arr := pdqsortLoop lt fuel arr a mid limit true true
            pdqsortLoop lt fuel arr (mid + 1) b limit wasBalanced wasPartitioned
          else
            let arr := pdqsortLoop lt fuel arr (mid + 1) b limit true true
            pdqsortLoop lt fuel arr a mid limit wasBalanced wasPartitioned

/-- goSortSlice embeds Go `sort.Slice(x, less)`:
`pdqsort(data, 0, n, bits.Len(uint(n)))`.  Fuel `2*n + 8` strictly exceeds
the iteration count along any path (each loop iteration shrinks the active
range). -/
def goSortSlice {α : Type} [Inhabited α] (lt : α → α → Bool) (l : List α) : List α :=
  let n := l.length
  (pdqsortLoop lt (2 * n + 8) l.toArray 0 n (bitsLen n) true true).toList

/-!
Embedding of `fetchMovies` / `fetchMovieDetail`
(`recommendation_service.go:270-340`) and of the orchestrating
`GetRecommendations` (`recommendation_service.go:44-118`), with the handler
(`recommendation_handler.go:29-53`) and the repository write operations
(`recommendation_repository.go`).
-/

/-- CatalogEnv is the oracle for the movie-service collaborator: the
outcome of the list fetch per page number, and of the detail fetch per
movie id.  An `Except.error` stands for any of transport error, non-200
status, or JSON decode failure (the three failure exits of the
corresponding Go call sites). -/
structure CatalogEnv where
  pageResult : ℕ → Except String MovieListResponse
  detailResult : Int → Except String MovieDetail

/-- detailOrFallback is the per-item body of the detail loop of
`fetchMovies` (`recommendation_service.go:289-304`): on detail-fetch
failure the item degrades to a `MovieDetail` built from the list summary
alone (Go zero values for the fields the summary lacks: empty genres, zero
duration). -/
def detailOrFallback (env : CatalogEnv) (item : MovieListItem) : MovieDetail :=
  match env.detailResult item.id with
  | Except.error _ =>
    { id := item.id, title := item.title, overview := "", releaseDate := item.releaseDate,
      genres := [], language := "", duration := 0, popularity := item.popularity,
      posterUrl := item.posterUrl, backdropUrl := "" }
  | Except.ok d => d

/-- fetchMoviesAux is the page loop of `fetchMovies`: `remaining` counts the
page numbers still allowed (`page <= pages`), `page` is the current page
number.  A page-level failure aborts the whole fetch; after a successful
page, the loop breaks early when `page >= TotalPages`. -/
def fetchMoviesAux (env : CatalogEnv) : ℕ → ℕ → List MovieDetail →
    Except String (List MovieDetail)
  | 0, _, acc => Except.ok acc
  | remaining + 1, page, acc =>
    match env.pageResult page with
    | Except.error e => Except.error e
    | Except.ok listResp =>
      let acc := acc ++ listResp.data.map (detailOrFallback env)
      if (page : Int) ≥ listResp.totalPages then Except.ok acc
      else fetchMoviesAux env remaining (page + 1) acc

/-- fetchMovies embeds `fetchMovies(ctx, pages)`
(`recommendation_service.go:270-310`). -/
def fetchMovies (env : CatalogEnv) (pages : ℕ) : Except String (List MovieDetail) :=
  fetchMoviesAux env pages 1 []

/-- processedPages mirrors which page payloads the loop of `fetchMovies`
consumes, in order: it stops at the first failing page, after the last
allowed page, or at the early `TotalPages` break. -/
def processedPages (env : CatalogEnv) : ℕ → ℕ → List (List MovieListItem)
  | 0, _ => []
  | remaining + 1, page =>
    match env.pageResult page with
    | Except.error _ => []
    | Except.ok listResp =>
      if (page : Int) ≥ listResp.totalPages then [listResp.data]
      else listResp.data :: processedPages env remaining (page + 1)

/-- Effects records the externally visible side effects of one
`GetRecommendations` call: which upstream collaborators were called, the
cache write (key and serialized payload) if one occurred, and the snapshot
write (user id and `(movieId, score)` rows) if one was issued. -/
structure Effects where
  calledPrefs : Bool
  calledCatalog : Bool
  calledRules : Bool
  cacheWrite : Option (String × String)
  snapshotWrite : Option (Int × List (Int × ℚ))
deriving DecidableEq, Repr

/-- noEffects is the effect record of a request that performed no upstream
call and no write. -/
def noEffects : Effects :=
  { calledPrefs := false, calledCatalog := false, calledRules := false,
    cacheWrite := none, snapshotWrite := none }

/-- Env is the oracle for one `GetRecommendations` request: redis `Get`
(per key), the JSON codec for cached responses, the preference-service
outcome, the catalog oracle, the rule-store outcome, the timestamp string,
and the release-date/clock oracle. -/
structure Env where
  cacheGet : String → Option String
  decodeResp : String → Option RecommendationResponse
  encodeResp : RecommendationResponse → Option String
  prefsResult : Except String UserPreference
  catalog : CatalogEnv
  rulesResult : Except String (List RecommendationRule)
  nowStr : String
  daysSinceOf : String → Option ℚ

/-- cacheKeyFor embeds `fmt.Sprintf("recommendations:%d:%d", userID, limit)`. -/
def cacheKeyFor (userID limit : Int) : String :=
  "recommendations:" ++ toString userID ++ ":" ++ toString limit

/-- recLess is the comparison closure passed to `sort.Slice`
(`recommendation_service.go:89`): `scored[i].Score > scored[j].Score`. -/
def recLess (x y : MovieRecommendation) : Bool :=
  decide (x.score > y.score)

/-- truncateGo embeds the truncation
`if len(scored) > limit { scored = scored[:limit] }`
(`recommendation_service.go:94-96`). -/
def truncateGo (limit : Int) (xs : List MovieRecommendation) : List MovieRecommendation :=
  if (xs.length : Int) > limit then xs.take limit.toNat else xs

/-- GetRecommendations embeds `GetRecommendations(ctx, userID, limit)`
(`recommendation_service.go:44-118`), returning the response-or-error
together with the effects of the call.  A cached entry that deserializes is
returned as-is; a failed preference fetch degrades to the default profile;
a failed pool fetch or rule read aborts; an empty pool yields an empty
response; otherwise score, sort (`sort.Slice`), truncate, cache, and issue
the snapshot write.  (Go would panic slicing `scored[:limit]` for negative
`limit`; the handler only passes limits in 1..50, and the embedding
truncates by `Int.toNat`.) -/
def GetRecommendations (env : Env) (userID limit : Int) :
    Except String RecommendationResponse × Effects :=
  let cacheKey := cacheKeyFor userID limit
  let hit : Option RecommendationResponse :=
    match env.cacheGet cacheKey with
    | some cached => env.decodeResp cached
    | none => none
  match hit with
  | some resp => (Except.ok resp, noEffects)
  | none =>
    let prefs :=
      match env.prefsResult with
      | Except.ok p => p
      | Except.error _ => defaultPrefs userID
    match fetchMovies env.catalog 3 with
    | Except.error e =>
      (Except.error ("fetch movies: " ++ e),
       { noEffects with calledPrefs := true, calledCatalog := true })
    | Except.ok allMovies =>
      if allMovies.isEmpty then
        (Except.ok { userId := userID, recommendations := [], generatedAt := env.nowStr },
         { noEffects with calledPrefs := true, calledCatalog := true })
      else
        match env.rulesResult with
        | Except.error e =>
          (Except.error ("get rules: " ++ e),
           { noEffects with calledPrefs := true, calledCatalog := true,
                            calledRules := true })
        | Except.ok rules =>
          let scored := scoreMovies env.daysSinceOf allMovies prefs rules
          let sorted := goSortSlice recLess scored
          let truncated := truncateGo limit sorted
          let resp : RecommendationResponse :=
            { userId := userID, recommendations := truncated, generatedAt := env.nowStr }
          (Except.ok resp,
           { calledPrefs := true, calledCatalog := true, calledRules := true,
             cacheWrite := (env.encodeResp resp).map (fun d => (cacheKey, d)),
             snapshotWrite := some (userID, truncated.map (fun r => (r.id, r.score))) })

/-- cacheMiss states that the request `(u, l)` misses the cache: either
redis has no entry under the request's key, or the stored entry does not
deserialize (in which case the Go code falls through to recomputation). -/
def cacheMiss (env : Env) (u l : Int) : Prop :=
  match env.cacheGet (cacheKeyFor u l) with
  | none => True
  | some s => env.decodeResp s = none

/-- setPrefs replaces the preference-service outcome of an environment. -/
def setPrefs (env : Env) (p : Except String UserPreference) : Env :=
  { env with prefsResult := p }

/-- SnapshotRow is one row of `user_recommendation_snapshots`. -/
structure SnapshotRow where
  userId : Int
  movieId : Int
  score : ℚ
deriving DecidableEq, Repr

/-- upsertSnapshot embeds `UpsertSnapshot`
(`recommendation_repository.go:46-58`): insert, or on conflict of
`(user_id, movie_id)` update the score. -/
def upsertSnapshot (st : List SnapshotRow) (u mid : Int) (sc : ℚ) : List SnapshotRow :=
  if st.any (fun r => r.userId == u && r.movieId == mid) then
    st.map (fun r =>
      if r.userId == u && r.movieId == mid then { r with score := sc } else r)
  else st ++ [{ userId := u, movieId := mid, score := sc }]

/-- clearSnapshots embeds `ClearSnapshots`
(`recommendation_repository.go:85-91`): delete all rows of the user. -/
def clearSnapshots (st : List SnapshotRow) (u : Int) : List SnapshotRow :=
  st.filter (fun r => !(r.userId == u))

/-- applySnapshotWrite applies the recorded snapshot effect to a snapshot
store: the asynchronous goroutine of `GetRecommendations`
(`recommendation_service.go:99-104`) clears the user's rows and upserts one
row per returned recommendation; no effect leaves the store unchanged. -/
def applySnapshotWrite (st : List SnapshotRow) (eff : Effects) : List SnapshotRow :=
  match eff.snapshotWrite with
  | none => st
  | some (u, rows) => rows.foldl (fun s p => upsertSnapshot s u p.1 p.2) (clearSnapshots st u)

/-- applyCacheWrite applies the recorded cache effect to a cache store
(modelled as an association list): redis `Set` replaces the value under the
key; no effect leaves the store unchanged. -/
def applyCacheWrite (st : List (String × String)) (eff : Effects) :
    List (String × String) :=
  match eff.cacheWrite with
  | none => st
  | some kv => kv :: st.filter (fun p => !(p.1 == kv.1))

/-- HandlerResult is the observable outcome of the HTTP handler: 400 for an
invalid user id, 500 when the service errors, or the JSON response. -/
inductive HandlerResult where
  | badRequest : HandlerResult
  | serverError : HandlerResult
  | okResp : RecommendationResponse → HandlerResult
deriving DecidableEq, Repr

/-- effectiveLimit embeds the limit clamp of the handler
(`recommendation_handler.go:38-41`): `if limit <= 0 || limit > 50 { limit = 10 }`. -/
def effectiveLimit (l : Int) : Int :=
  if l ≤ 0 ∨ 50 < l then 10 else l

/-- handleGetRecommendations embeds the handler `GetRecommendations`
(`recommendation_handler.go:29-53`): reject non-positive user ids with 400,
clamp the limit, call the service, map a service error to 500. -/
def handleGetRecommendations (env : Env) (userID limit : Int) : HandlerResult :=
  if userID ≤ 0 then HandlerResult.badRequest
  else
    match (GetRecommendations env userID (effectiveLimit limit)).1 with
    | Except.error _ => HandlerResult.serverError
    | Except.ok r => HandlerResult.okResp r

/-!
Concrete request used to analyse the ordering of `GetRecommendations`: a
single catalog page of 13 movies whose popularity values contain ties, with
only the `popularity` rule active (weight 1), so the computed score of a
movie is its popularity normalized by the pool maximum (9), rounded to 4
decimals — equal popularity means equal score.
-/

/-- Popularity values of the 13-movie pool, indexed by position; movie
`id = position + 1`.  Positions 1 and 4 (ids 2 and 5) tie at 4, positions
0, 2, 3, 5, 7, 10 (ids 1, 3, 4, 6, 8, 11) tie at 9. -/
def c1pops : List ℚ := [9, 4, 9, 9, 4, 9, 5, 9, 1, 1, 9, 1, 1]

/-- Catalog list summary of the movie at position `i` of the pool. -/
def c1item (i : ℕ) : MovieListItem :=
  { id := (i : Int) + 1, title := "movie", releaseDate := "2020-01-01",
    popularity := c1pops.getD i 0, posterUrl := "" }

/-- Catalog detail of movie id `i` (same data as the summary, no genres). -/
def c1detail (i : Int) : MovieDetail :=
  { id := i, title := "movie", overview := "", releaseDate := "2020-01-01",
    genres := [], language := "en", duration := 100,
    popularity := c1pops.getD (i - 1).toNat 0, posterUrl := "", backdropUrl := "" }

/-- Environment of the concrete request: empty cache, preferences
available, one catalog page of 13 movies (all detail fetches succeed), one
active `popularity` rule of weight 1. -/
def c1env : Env :=
  { cacheGet := fun _ => none
    decodeResp := fun _ => none
    encodeResp := fun _ => some "serialized"
    prefsResult := Except.ok
      { userId := 1, preferredGenres := [], preferredLanguage := "en", minRating := 0 }
    catalog :=
      { pageResult := fun p =>
          if p = 1 then
            Except.ok { page := 1, pageSize := 20, totalPages := 1, totalResults := 13,
                        data := (List.range 13).map c1item }
          else Except.error "no such page"
        detailResult := fun i =>
          if 1 ≤ i ∧ i ≤ 13 then Except.ok (c1detail i) else Except.error "no such movie" }
    rulesResult := Except.ok
      [{ id := 1, name := "Popularity", weight := 1, ruleType := "popularity",
         isActive := true }]
    nowStr := "2026-01-01T00:00:00Z"
    daysSinceOf := fun _ => none }

/-- c1output is the recommendation list the embedded service computes for
the concrete request (user 1, limit 50, so nothing is truncated). -/
def c1output : List MovieRecommendation :=
  match (GetRecommendations c1env 1 50).1 with
  | Except.ok r => r.recommendations
  | Except.error _ => []

/-- c1pool is the candidate pool the embedded service fetches for the
concrete request, in input order. -/
def c1pool : List MovieDetail :=
  match fetchMovies c1env.catalog 3 with
  | Except.ok ms => ms
  | Except.error _ => []

/-!
Concrete environments used to instantiate the general theorems below on
sample requests.
-/

/-- Environment whose catalog list fetch always fails (e.g. HTTP 500), with
an empty cache. -/
def c2env : Env :=
  { cacheGet := fun _ => none
    decodeResp := fun _ => none
    encodeResp := fun _ => none
    prefsResult := Except.ok (defaultPrefs 1)
    catalog :=
      { pageResult := fun _ => Except.error "movie-service returned 500"
        detailResult := fun _ => Except.error "movie-service returned 500" }
    rulesResult := Except.ok []
    nowStr := "2026-01-01T00:00:00Z"
    daysSinceOf := fun _ => none }

/-- Cached response used by the cache-hit environment. -/
def c3resp : RecommendationResponse :=
  { userId := 1
    recommendations :=
      [{ id := 42, title := "cached movie", releaseDate := "2024-05-01",
         genres := ["Action"], popularity := 5, posterUrl := "", score := 1/2,
         reason := "highly popular" }]
    generatedAt := "2026-01-01T00:00:00Z" }

/-- Environment whose cache holds a deserializable entry for every key and
whose upstream collaborators would all fail if they were consulted. -/
def c3env : Env :=
  { cacheGet := fun _ => some "cached-blob"
    decodeResp := fun _ => some c3resp
    encodeResp := fun _ => none
    prefsResult := Except.error "preference-service down"
    catalog :=
      { pageResult := fun _ => Except.error "movie-service down"
        detailResult := fun _ => Except.error "movie-service down" }
    rulesResult := Except.error "database down"
    nowStr := "2026-01-01T00:00:00Z"
    daysSinceOf := fun _ => none }

/-- Single catalog movie for the preference-failure scenario. -/
def c4movie : MovieDetail :=
  { id := 7, title := "some movie", overview := "", releaseDate := "2025-06-01",
    genres := ["Action"], language := "en", duration := 120, popularity := 3,
    posterUrl := "", backdropUrl := "" }

/-- Environment where the preference fetch fails (HTTP 500) but the catalog
succeeds with a one-movie pool and one active popularity rule. -/
def c4env : Env :=
  { cacheGet := fun _ => none
    decodeResp := fun _ => none
    encodeResp := fun _ => some "serialized"
    prefsResult := Except.error "user-preference-service returned 500"
    catalog :=
      { pageResult := fun p =>
          if p = 1 then
            Except.ok { page := 1, pageSize := 20, totalPages := 1, totalResults := 1,
                        data := [{ id := 7, title := "some movie",
                                   releaseDate := "2025-06-01", popularity := 3,
                                   posterUrl := "" }] }
          else Except.error "no such page"
        detailResult := fun i =>
          if i = 7 then Except.ok c4movie else Except.error "no such movie" }
    rulesResult := Except.ok
      [{ id := 1, name := "Popularity", weight := 1/2, ruleType := "popularity",
         isActive := true }]
    nowStr := "2026-01-01T00:00:00Z"
    daysSinceOf := fun _ => some 10 }

/-- Catalog environment with one page of two items where the detail fetch
succeeds for id 1 and fails for id 2. -/
def c5env : CatalogEnv :=
  { pageResult := fun p =>
      if p = 1 then
        Except.ok { page := 1, pageSize := 20, totalPages := 1, totalResults := 2,
                    data := [{ id := 1, title := "first", releaseDate := "2024-01-01",
                               popularity := 8, posterUrl := "p1" },
                             { id := 2, title := "second", releaseDate := "2023-01-01",
                               popularity := 6, posterUrl := "p2" }] }
      else Except.error "no such page"
    detailResult := fun i =>
      if i = 1 then
        Except.ok { id := 1, title := "first", overview := "o", releaseDate := "2024-01-01",
                    genres := ["Action", "Drama"], language := "en", duration := 120,
                    popularity := 8, posterUrl := "p1", backdropUrl := "b1" }
      else Except.error "movie-service returned 500" }

/-- Arbitrary environment used to exercise the handler's limit clamping. -/
def c8env : Env :=
  { cacheGet := fun _ => none
    decodeResp := fun _ => none
    encodeResp := fun _ => none
    prefsResult := Except.ok (defaultPrefs 1)
    catalog :=
      { pageResult := fun _ => Except.error "unavailable"
        detailResult := fun _ => Except.error "unavailable" }
    rulesResult := Except.ok []
    nowStr := "2026-01-01T00:00:00Z"
    daysSinceOf := fun _ => none }

/-- Two movies with positive and zero popularity for the normalization
witness. -/
def c9movieA : MovieDetail :=
  { id := 1, title := "popular", overview := "", releaseDate := "", genres := [],
    language := "", duration := 0, popularity := 3, posterUrl := "", backdropUrl := "" }

/-- Movie with zero popularity. -/
def c9movieB : MovieDetail :=
  { id := 2, title := "unknown", overview := "", releaseDate := "", genres := [],
    language := "", duration := 0, popularity := 0, posterUrl := "", backdropUrl := "" }

/-- Environment where the rule-store read fails on a cache miss with a
non-empty pool. -/
def c10env : Env :=
  { cacheGet := fun _ => none
    decodeResp := fun _ => none
    encodeResp := fun _ => some "serialized"
    prefsResult := Except.ok (defaultPrefs 1)
    catalog :=
      { pageResult := fun p =>
          if p = 1 then
            Except.ok { page := 1, pageSize := 20, totalPages := 1, totalResults := 1,
                        data := [{ id := 3, title := "a movie",
                                   releaseDate := "2024-01-01", popularity := 2,
                                   posterUrl := "" }] }
          else Except.error "no such page"
        detailResult := fun _ => Except.error "detail down" }
    rulesResult := Except.error "query active rules: connection refused"
    nowStr := "2026-01-01T00:00:00Z"
    daysSinceOf := fun _ => none }

/-!
Helper lemmas.  The sort port only permutes elements in place, so every
primitive preserves the array size; `goSortSlice_length` packages this for
the list-level entry point.
-/

set_option maxRecDepth 40000

@[simp]
theorem size_aset {α : Type} (arr : Array α) (i : ℕ) (v : α) :
    (aset arr i v).size = arr.size := by
  unfold aset
  split
  · simp
  · rfl

@[simp]
theorem size_aswap {α : Type} [Inhabited α] (arr : Array α) (i j : ℕ) :
    (aswap arr i j).size = arr.size := by
  simp [aswap]

@[simp]
theorem size_insertionSortInner {α : Type} [Inhabited α] (lt : α → α → Bool) (a : ℕ) :
    ∀ (j : ℕ) (arr : Array α), (insertionSortInner lt a j arr).size = arr.size := by
  intro j
  induction j with
  | zero => intro arr; simp [insertionSortInner]
  | succ j ih =>
    intro arr
    rw [insertionSortInner]
    split
    · rw [ih, size_aswap]
    · rfl

@[simp]
theorem size_insertionSortOuter {α : Type} [Inhabited α] (lt : α → α → Bool) (a b : ℕ) :
    ∀ (fuel i : ℕ) (arr : Array α), (insertionSortOuter lt a b fuel i arr).size = arr.size := by
  intro fuel
  induction fuel with
  | zero => intro i arr; simp [insertionSortOuter]
  | succ fuel ih =>
    intro i arr
    rw [insertionSortOuter]
    split
    · rw [ih, size_insertionSortInner]
    · rfl

@[simp]
theorem size_insertionSortGo {α : Type} [Inhabited α] (lt : α → α → Bool)
    (arr : Array α) (a b : ℕ) : (insertionSortGo lt arr a b).size = arr.size := by
  simp [insertionSortGo]

@[simp]
theorem size_siftDownGo {α : Type} [Inhabited α] (lt : α → α → Bool) :
    ∀ (fuel : ℕ) (arr : Array α) (root hi first : ℕ),
      (siftDownGo lt fuel arr root hi first).size = arr.size := by
  intro fuel
  induction fuel with
  | zero => intro arr root hi first; simp [siftDownGo]
  | succ fuel ih =>
    intro arr root hi first
    rw [siftDownGo]
    simp [apply_ite (fun t : Array α => t.size), ih]

@[simp]
theorem size_heapBuild {α : Type} [Inhabited α] (lt : α → α → Bool) (hi first : ℕ) :
    ∀ (c : ℕ) (arr : Array α), (heapBuild lt hi first c arr).size = arr.size := by
  intro c
  induction c with
  | zero => intro arr; simp [heapBuild]
  | succ c ih =>
    intro arr
    rw [heapBuild, ih, size_siftDownGo]

@[simp]
theorem size_heapPop {α : Type} [Inhabited α] (lt : α → α → Bool) (first : ℕ) :
    ∀ (c : ℕ) (arr : Array α), (heapPop lt first c arr).size = arr.size := by
  intro c
  induction c with
  | zero => intro arr; simp [heapPop]
  | succ c ih =>
    intro arr
    rw [heapPop, ih, size_siftDownGo, size_aswap]

@[simp]
theorem size_heapSortGo {α : Type} [Inhabited α] (lt : α → α → Bool)
    (arr : Array α) (a b : ℕ) : (heapSortGo lt arr a b).size = arr.size := by
  simp [heapSortGo]

@[simp]
theorem size_reverseRangeGo {α : Type} [Inhabited α] :
    ∀ (fuel : ℕ) (arr : Array α) (i j : ℕ), (reverseRangeGo fuel arr i j).size = arr.size := by
  intro fuel
  induction fuel with
  | zero => intro arr i j; simp [reverseRangeGo]
  | succ fuel ih =>
    intro arr i j
    rw [reverseRangeGo]
    split
    · rw [ih, size_aswap]
    · rfl

@[simp]
theorem size_pisShiftLeft {α : Type} [Inhabited α] (lt : α → α → Bool) :
    ∀ (j : ℕ) (arr : Array α), (pisShiftLeft lt j arr).size = arr.size := by
  intro j
  induction j with
  | zero => intro arr; simp [pisShiftLeft]
  | succ j ih =>
    intro arr
    rw [pisShiftLeft]
    split
    · rw [ih, size_aswap]
    · rfl

@[simp]
theorem size_pisShiftRight {α : Type} [Inhabited α] (lt : α → α → Bool) (b : ℕ) :
    ∀ (fuel j : ℕ) (arr : Array α), (pisShiftRight lt b fuel j arr).size = arr.size := by
  intro fuel
  induction fuel with
  | zero => intro j arr; simp [pisShiftRight]
  | succ fuel ih =>
    intro j arr
    rw [pisShiftRight]
    split
    · rw [ih, size_aswap]
    · rfl

@[simp]
theorem size_partialInsertionSortLoop {α : Type} [Inhabited α] (lt : α → α → Bool)
    (a b : ℕ) : ∀ (steps i : ℕ) (arr : Array α),
      (partialInsertionSortLoop lt a b steps i arr).2.size = arr.size := by
  intro steps
  induction steps with
  | zero => intro i arr; simp [partialInsertionSortLoop]
  | succ steps ih =>
    intro i arr
    rw [partialInsertionSortLoop]
    split
    · rfl
    · split
      · rfl
      · rw [ih]
        split
        · split
          · simp
          · simp
        · split
          · simp
          · simp

@[simp]
theorem size_partialInsertionSortGo {α : Type} [Inhabited α] (lt : α → α → Bool)
    (arr : Array α) (a b : ℕ) : (partialInsertionSortGo lt arr a b).2.size = arr.size := by
  simp [partialInsertionSortGo]

@[simp]
theorem size_breakPatternsStep {α : Type} [Inhabited α] (a len modulus idx i : ℕ)
    (st : ℕ × Array α) : (breakPatternsStep a len modulus idx i st).2.size = st.2.size := by
  simp [breakPatternsStep]

@[simp]
theorem size_breakPatternsGo {α : Type} [Inhabited α] (arr : Array α) (a b : ℕ) :
    (breakPatternsGo arr a b).size = arr.size := by
  rw [breakPatternsGo]
  split
  · simp
  · rfl

@[simp]
theorem size_partLoop {α : Type} [Inhabited α] (lt : α → α → Bool) (a : ℕ) :
    ∀ (fuel i j : ℕ) (arr : Array α), (partLoop lt a fuel i j arr).2.size = arr.size := by
  intro fuel
  induction fuel with
  | zero => intro i j arr; simp [partLoop]
  | succ fuel ih =>
    intro i j arr
    rw [partLoop]
    split
    · rfl
    · rw [ih, size_aswap]

@[simp]
theorem size_partitionGo {α : Type} [Inhabited α] (lt : α → α → Bool)
    (arr : Array α) (a b pivot : ℕ) : (partitionGo lt arr a b pivot).2.2.size = arr.size := by
  rw [partitionGo]
  split
  · simp
  · simp

@[simp]
theorem size_peLoop {α : Type} [Inhabited α] (lt : α → α → Bool) (a : ℕ) :
    ∀ (fuel i j : ℕ) (arr : Array α), (peLoop lt a fuel i j arr).2.size = arr.size := by
  intro fuel
  induction fuel with
  | zero => intro i j arr; simp [peLoop]
  | succ fuel ih =>
    intro i j arr
    rw [peLoop]
    split
    · rfl
    · rw [ih, size_aswap]

@[simp]
theorem size_partitionEqualGo {α : Type} [Inhabited α] (lt : α → α → Bool)
    (arr : Array α) (a b pivot : ℕ) : (partitionEqualGo lt arr a b pivot).2.size = arr.size := by
  simp [partitionEqualGo]

@[simp]
theorem size_pdqsortLoop {α : Type} [Inhabited α] (lt : α → α → Bool) :
    ∀ (fuel : ℕ) (arr : Array α) (a b limit : ℕ) (wb wp : Bool),
      (pdqsortLoop lt fuel arr a b limit wb wp).size = arr.size := by
  intro fuel
  induction fuel with
  | zero => intro arr a b limit wb wp; simp [pdqsortLoop]
  | succ fuel ih =>
    intro arr a b limit wb wp
    rw [pdqsortLoop]
    simp only [apply_ite (fun t : Array α => t.size),
      apply_ite (fun p : Array α × ℕ => p.1),
      apply_ite (fun p : Array α × ℕ × SortedHint => p.1),
      apply_ite (fun p : Bool × Array α => p.2),
      size_insertionSortGo, size_heapSortGo, size_partialInsertionSortGo,
      size_partitionGo, size_partitionEqualGo, size_breakPatternsGo,
      size_reverseRangeGo, ih, ite_self]

theorem goSortSlice_length {α : Type} [Inhabited α] (lt : α → α → Bool) (l : List α) :
    (goSortSlice lt l).length = l.length := by
  simp [goSortSlice]

theorem fetchMoviesAux_eq_processedPages (env : CatalogEnv) :
    ∀ (remaining page : ℕ) (acc res : List MovieDetail),
      fetchMoviesAux env remaining page acc = Except.ok res →
      res = acc ++
        ((processedPages env remaining page).map
          (fun items => items.map (detailOrFallback env))).flatten := by
  intro remaining
  induction remaining with
  | zero =>
    intro page acc res h
    simp only [fetchMoviesAux, Except.ok.injEq] at h
    simp [processedPages, ← h]
  | succ remaining ih =>
    intro page acc res h
    rw [fetchMoviesAux] at h
    rw [processedPages]
    cases hp : env.pageResult page with
    | error e =>
      rw [hp] at h
      exact absurd h (by simp)
    | ok listResp =>
      rw [hp] at h
      dsimp only at h ⊢
      by_cases hstop : (page : Int) ≥ listResp.totalPages
      · rw [if_pos hstop] at h
        rw [if_pos hstop]
        simp only [Except.ok.injEq] at h
        simp [← h]
      · rw [if_neg hstop] at h
        rw [if_neg hstop]
        have := ih (page + 1) (acc ++ listResp.data.map (detailOrFallback env)) res h
        simp [this]

/-- maxPopFrom generalizes the fold of `maxPopularity` over its starting
value, for the induction below. -/
def maxPopFrom (q : ℚ) (ms : List MovieDetail) : ℚ :=
  ms.foldl (fun acc m => if m.popularity > acc then m.popularity else acc) q

theorem maxPopularity_eq_maxPopFrom (ms : List MovieDetail) :
    maxPopularity ms = maxPopFrom 0 ms := rfl

theorem le_maxPopFrom_init : ∀ (ms : List MovieDetail) (q : ℚ), q ≤ maxPopFrom q ms := by
  intro ms
  induction ms with
  | nil => intro q; simp [maxPopFrom]
  | cons m ms ih =>
    intro q
    show q ≤ maxPopFrom (if m.popularity > q then m.popularity else q) ms
    refine le_trans ?_ (ih _)
    split
    · exact le_of_lt (by assumption)
    · exact le_refl q

theorem le_maxPopFrom_mem :
    ∀ (ms : List MovieDetail) (q : ℚ) (m : MovieDetail), m ∈ ms →
      m.popularity ≤ maxPopFrom q ms := by
  intro ms
  induction ms with
  | nil => intro q m hm; cases hm
  | cons m0 ms ih =>
    intro q m hm
    rcases List.mem_cons.mp hm with h | h
    · subst h
      show m.popularity ≤ maxPopFrom (if m.popularity > q then m.popularity else q) ms
      refine le_trans ?_ (le_maxPopFrom_init ms _)
      split
      · exact le_refl _
      · exact le_of_not_lt (by assumption)
    · exact ih _ m h

theorem maxPopFrom_cases :
    ∀ (ms : List MovieDetail) (q : ℚ),
      maxPopFrom q ms = q ∨ ∃ m ∈ ms, maxPopFrom q ms = m.popularity := by
  intro ms
  induction ms with
  | nil => intro q; left; rfl
  | cons m0 ms ih =>
    intro q
    by_cases hc : m0.popularity > q
    · have hgoal : maxPopFrom q (m0 :: ms) = maxPopFrom m0.popularity ms := by
        show maxPopFrom (if m0.popularity > q then m0.popularity else q) ms = _
        rw [if_pos hc]
      rcases ih m0.popularity with h | ⟨m, hm, h⟩
      · right; exact ⟨m0, List.mem_cons_self m0 ms, by rw [hgoal, h]⟩
      · right; exact ⟨m, List.mem_cons_of_mem m0 hm, by rw [hgoal, h]⟩
    · have hgoal : maxPopFrom q (m0 :: ms) = maxPopFrom q ms := by
        show maxPopFrom (if m0.popularity > q then m0.popularity else q) ms = _
        rw [if_neg hc]
      rcases ih q with h | ⟨m, hm, h⟩
      · left; rw [hgoal, h]
      · right; exact ⟨m, List.mem_cons_of_mem m0 hm, by rw [hgoal, h]⟩

theorem maxPopFrom_all_zero (ms : List MovieDetail) (h : ∀ m ∈ ms, m.popularity = 0) :
    maxPopFrom 0 ms = 0 := by
  rcases maxPopFrom_cases ms 0 with h0 | ⟨m, hm, h0⟩
  · exact h0
  · rw [h0]; exact h m hm

theorem countFold_eq_countP {β : Type} (p : β → Bool) :
    ∀ (l : List β) (n : ℕ),
      l.foldl (fun acc g => if p g then acc + 1 else acc) n = n + l.countP p := by
  intro l
  induction l with
  | nil => intro n; simp [List.countP_nil]
  | cons x l ih =>
    intro n
    rw [List.foldl_cons, List.countP_cons, ih]
    by_cases hx : p x
    · simp [hx]; omega
    · simp [hx]

theorem find?_filter_of_imp {β : Type} (p q : β → Bool) (himp : ∀ x, p x = true → q x = true) :
    ∀ l : List β, (l.filter q).find? p = l.find? p := by
  intro l
  induction l with
  | nil => rfl
  | cons x l ih =>
    by_cases hq : q x
    · rw [List.filter_cons_of_pos hq]
      by_cases hp : p x
      · rw [List.find?_cons_of_pos _ hp, List.find?_cons_of_pos _ hp]
      · rw [List.find?_cons_of_neg _ hp, List.find?_cons_of_neg _ hp, ih]
    · rw [List.filter_cons_of_neg (by simp [hq])]
      by_cases hp : p x
      · exact absurd (himp x hp) (by simp [hq])
      · rw [List.find?_cons_of_neg _ hp, ih]

theorem find?_filter_none {β : Type} (p q : β → Bool) (himp : ∀ x, p x = true → q x = false) :
    ∀ l : List β, (l.filter q).find? p = none := by
  intro l
  induction l with
  | nil => rfl
  | cons x l ih =>
    by_cases hq : q x
    · rw [List.filter_cons_of_pos hq]
      by_cases hp : p x
      · exact absurd (himp x hp) (by simp [hq])
      · rw [List.find?_cons_of_neg _ hp, ih]
    · rw [List.filter_cons_of_neg (by simp [hq]), ih]

/-- genreFilter is the rule list with the `genre_match` rules removed, used
to express that the genre component is not evaluated at all. -/
def genreFilter (rules : List RecommendationRule) : List RecommendationRule :=
  rules.filter (fun r => !(r.ruleType == "genre_match"))

theorem ruleWeight_genreFilter_ne (rules : List RecommendationRule) (t : String)
    (h : (t == "genre_match") = false) :
    ruleWeight (genreFilter rules) t = ruleWeight rules t := by
  unfold ruleWeight genreFilter
  rw [← List.filter_reverse]
  rw [find?_filter_of_imp _ _ ?_ rules.reverse]
  intro r hr
  have : r.ruleType = t := by simpa using hr
  simp [this, h]

theorem ruleWeight_genreFilter_genre (rules : List RecommendationRule) :
    ruleWeight (genreFilter rules) "genre_match" = none := by
  unfold ruleWeight genreFilter
  rw [← List.filter_reverse]
  rw [find?_filter_none _ _ ?_ rules.reverse]
  · rfl
  · intro r hr
    have : r.ruleType = "genre_match" := by simpa using hr
    simp [this]

theorem scoreOne_empty_prefSet (f : String → Option ℚ) (rules : List RecommendationRule)
    (maxPopAdj : ℚ) (m : MovieDetail) :
    scoreOne f rules maxPopAdj [] m = scoreOne f (genreFilter rules) maxPopAdj [] m := by
  unfold scoreOne
  rw [ruleWeight_genreFilter_ne rules "popularity" (by decide),
      ruleWeight_genreFilter_ne rules "recency" (by decide),
      ruleWeight_genreFilter_genre rules]
  cases hg : ruleWeight rules "genre_match" with
  | none => rfl
  | some w => simp

/-- scoreMovies_no_prefs: with an empty preferred-genre profile the
genre-match component is never evaluated: scoring with the full rule set
coincides with scoring with every `genre_match` rule removed. -/
theorem scoreMovies_no_prefs (f : String → Option ℚ) (ms : List MovieDetail)
    (prefs : UserPreference) (rules : List RecommendationRule)
    (h : prefs.preferredGenres = []) :
    scoreMovies f ms prefs rules = scoreMovies f ms prefs (genreFilter rules) := by
  unfold scoreMovies
  rw [h]
  simp only [List.map_nil]
  exact List.map_congr_left (fun m _ => scoreOne_empty_prefSet f rules (popDivisor ms) m)

theorem scoreMovies_length (f : String → Option ℚ) (ms : List MovieDetail)
    (prefs : UserPreference) (rules : List RecommendationRule) :
    (scoreMovies f ms prefs rules).length = ms.length := by
  unfold scoreMovies
  exact List.length_map ms _

theorem truncateGo_ne_nil (limit : Int) (xs : List MovieRecommendation)
    (hxs : xs ≠ []) (hl : 1 ≤ limit) : truncateGo limit xs ≠ [] := by
  unfold truncateGo
  split
  · intro hcon
    rcases List.take_eq_nil_iff.mp hcon with h | h
    · omega
    · exact hxs h
  · exact hxs

/-!
Claim theorems.
-/

/-- C6: the recency score is 0 when the release date does not parse, 1.0 at
0 days since release, 1.0 for future dates (days floored to 0), 0 from day
730 on, and monotonically non-increasing in the days since release. -/
theorem recencyScore_spec (f : String → Option ℚ) (s : String) :
    (f s = none → computeRecencyScore f s = 0) ∧
    (f s = some 0 → computeRecencyScore f s = 1) ∧
    (∀ d : ℚ, f s = some d → d ≤ 0 → computeRecencyScore f s = 1) ∧
    (∀ d : ℚ, f s = some d → 730 ≤ d → computeRecencyScore f s = 0) ∧
    (∀ d1 d2 : ℚ, ∀ s1 s2 : String, f s1 = some d1 → f s2 = some d2 → d1 ≤ d2 →
      computeRecencyScore f s2 ≤ computeRecencyScore f s1) := by
  have heval : ∀ t : String, ∀ d : ℚ, f t = some d →
      computeRecencyScore f t =
        if 1 - (if d < 0 then 0 else d) / 730 < 0 then 0
        else 1 - (if d < 0 then 0 else d) / 730 := by
    intro t d h
    unfold computeRecencyScore
    rw [h]
  refine ⟨?_, ?_, ?_, ?_, ?_⟩
  · intro h
    unfold computeRecencyScore
    rw [h]
  · intro h
    rw [heval s 0 h]
    norm_num
  · intro d h hd
    rw [heval s d h]
    have hz : (if d < 0 then (0 : ℚ) else d) = 0 := by
      split
      · rfl
      · linarith
    rw [hz]
    norm_num
  · intro d h hd
    rw [heval s d h]
    have hz : (if d < 0 then (0 : ℚ) else d) = d := by
      rw [if_neg]
      linarith
    rw [hz]
    split
    · rfl
    · linarith
  · intro d1 d2 s1 s2 h1 h2 hle
    rw [heval s1 d1 h1, heval s2 d2 h2]
    have he : (if d1 < 0 then (0 : ℚ) else d1) ≤ (if d2 < 0 then 0 else d2) := by
      split <;> split <;> linarith
    have key : ∀ e1 e2 : ℚ, e1 ≤ e2 →
        (if 1 - e2 / 730 < 0 then (0 : ℚ) else 1 - e2 / 730) ≤
          (if 1 - e1 / 730 < 0 then 0 else 1 - e1 / 730) := by
      intro e1 e2 hee
      split <;> split <;> linarith
    exact key _ _ he

/-- C6 witness: the recency properties instantiated at concrete oracles. -/
theorem recencyScore_spec_witness :
    computeRecencyScore (fun _ => none) "bad-date" = 0 ∧
    computeRecencyScore (fun _ => some 0) "today" = 1 ∧
    computeRecencyScore (fun _ => some (-5)) "future" = 1 ∧
    computeRecencyScore (fun _ => some 800) "old" = 0 ∧
    computeRecencyScore (fun t => if t = "a" then some 10 else some 20) "b" ≤
      computeRecencyScore (fun t => if t = "a" then some 10 else some 20) "a" := by
  refine ⟨(recencyScore_spec (fun _ => none) "bad-date").1 rfl,
          (recencyScore_spec (fun _ => some 0) "today").2.1 rfl,
          (recencyScore_spec (fun _ => some (-5)) "future").2.2.1 (-5) rfl (by norm_num),
          (recencyScore_spec (fun _ => some 800) "old").2.2.2.1 800 rfl (by norm_num),
          (recencyScore_spec (fun t => if t = "a" then some 10 else some 20) "x").2.2.2.2
            10 20 "a" "b" (by decide) (by decide) (by norm_num)⟩

/-- C7: the genre-match score is 0 for a candidate without genres and
otherwise the fraction of its genres case-insensitively present in the
preferred set (hence 1.0 when all are preferred); with no preferred genres
the genre component is not evaluated at all — scoring coincides with
scoring under a rule set with every genre_match rule removed. -/
theorem genreMatchScore_spec (ps genres : List String) (f : String → Option ℚ)
    (ms : List MovieDetail) (prefs : UserPreference) (rules : List RecommendationRule) :
    computeGenreMatchScore [] ps = 0 ∧
    (genres ≠ [] →
      computeGenreMatchScore genres ps =
        ((genres.countP (fun g => ps.contains (goToLower g))) : ℚ) / (genres.length : ℚ)) ∧
    (genres ≠ [] → (∀ g ∈ genres, ps.contains (goToLower g) = true) →
      computeGenreMatchScore genres ps = 1) ∧
    (prefs.preferredGenres = [] →
      scoreMovies f ms prefs rules = scoreMovies f ms prefs (genreFilter rules)) := by
  have hcount : ∀ h : genres ≠ [],
      computeGenreMatchScore genres ps =
        ((genres.countP (fun g => ps.contains (goToLower g))) : ℚ) / (genres.length : ℚ) := by
    intro h
    unfold computeGenreMatchScore
    rw [if_neg (by simpa using h)]
    rw [countFold_eq_countP]
    simp
  refine ⟨rfl, hcount, ?_, scoreMovies_no_prefs f ms prefs rules⟩
  intro h hall
  rw [hcount h]
  rw [List.countP_eq_length.mpr hall]
  have hlen : (genres.length : ℚ) ≠ 0 := by
    simp only [ne_eq, Nat.cast_eq_zero, List.length_eq_zero]
    exact h
  exact div_self hlen

/-- C7 witness: genre-match properties at concrete genre lists and a
concrete empty-preference scoring run. -/
theorem genreMatchScore_spec_witness :
    computeGenreMatchScore [] ["action"] = 0 ∧
    computeGenreMatchScore ["Action", "Drama"] ["action"] = 1/2 ∧
    computeGenreMatchScore ["Action", "Drama"] ["action", "drama"] = 1 ∧
    scoreMovies (fun _ => none) [c4movie] (defaultPrefs 1)
        [{ id := 1, name := "Genre", weight := 1, ruleType := "genre_match",
           isActive := true }] =
      scoreMovies (fun _ => none) [c4movie] (defaultPrefs 1)
        (genreFilter [{ id := 1, name := "Genre", weight := 1, ruleType := "genre_match",
                        isActive := true }]) := by
  refine ⟨(genreMatchScore_spec ["action"] [] (fun _ => none) [] (defaultPrefs 1) []).1,
          ?_, ?_,
          (genreMatchScore_spec [] [] (fun _ => none) [c4movie] (defaultPrefs 1)
            [{ id := 1, name := "Genre", weight := 1, ruleType := "genre_match",
               isActive := true }]).2.2.2 rfl⟩
  · refine ((genreMatchScore_spec ["action"] ["Action", "Drama"] (fun _ => none) []
      (defaultPrefs 1) []).2.1 (by decide)).trans ?_
    decide
  · exact (genreMatchScore_spec ["action", "drama"] ["Action", "Drama"] (fun _ => none) []
      (defaultPrefs 1) []).2.2.1 (by decide) (by decide)

/-- C8: the handler never rejects a request for an out-of-range limit: a
limit ≤ 0 or > 50 is replaced by the default 10 (the request behaves
exactly like a limit-10 request), while a limit in 1..50 is used
unchanged. -/
theorem limit_clamp_spec (env : Env) (u l : Int) (hu : 0 < u) :
    ((l ≤ 0 ∨ 50 < l) → effectiveLimit l = 10 ∧
      handleGetRecommendations env u l = handleGetRecommendations env u 10 ∧
      handleGetRecommendations env u l ≠ HandlerResult.badRequest) ∧
    (1 ≤ l → l ≤ 50 → effectiveLimit l = l) := by
  constructor
  · intro hl
    have he : effectiveLimit l = 10 := by
      unfold effectiveLimit
      rw [if_pos hl]
    have he10 : effectiveLimit 10 = 10 := by
      unfold effectiveLimit
      rw [if_neg (by omega)]
    refine ⟨he, ?_, ?_⟩
    · unfold handleGetRecommendations
      rw [if_neg (by omega), if_neg (by omega), he, he10]
    · unfold handleGetRecommendations
      rw [if_neg (by omega)]
      cases hx : (GetRecommendations env u (effectiveLimit l)).1 <;> simp
  · intro h1 h2
    unfold effectiveLimit
    rw [if_neg (by omega)]

/-- C8 witness: limit 0 is clamped to 10 and not rejected; limit 7 is used
unchanged. -/
theorem limit_clamp_spec_witness :
    effectiveLimit 0 = 10 ∧
    handleGetRecommendations c8env 1 0 = handleGetRecommendations c8env 1 10 ∧
    handleGetRecommendations c8env 1 0 ≠ HandlerResult.badRequest ∧
    effectiveLimit 7 = 7 := by
  have h1 := (limit_clamp_spec c8env 1 0 (by norm_num)).1 (Or.inl (by norm_num))
  have h2 := (limit_clamp_spec c8env 1 7 (by norm_num)).2 (by norm_num) (by norm_num)
  exact ⟨h1.1, h1.2.1, h1.2.2, h2⟩

/-- C9: in a pool containing an item of positive popularity, every
normalized popularity is at most 1 and the maximum is attained: some item
normalizes exactly to 1; if every popularity is 0, the divisor is replaced
by 1 and every normalized value is 0. -/
theorem popularity_normalization_spec (ms : List MovieDetail) :
    ((∃ m ∈ ms, 0 < m.popularity) →
      (∀ m ∈ ms, normalizedPop ms m ≤ 1) ∧ ∃ m ∈ ms, normalizedPop ms m = 1) ∧
    ((∀ m ∈ ms, m.popularity = 0) →
      popDivisor ms = 1 ∧ ∀ m ∈ ms, normalizedPop ms m = 0) := by
  constructor
  · rintro ⟨m0, hm0, hpos⟩
    have hle0 : m0.popularity ≤ maxPopularity ms := by
      rw [maxPopularity_eq_maxPopFrom]
      exact le_maxPopFrom_mem ms 0 m0 hm0
    have hmax_pos : 0 < maxPopularity ms := lt_of_lt_of_le hpos hle0
    have hdiv : popDivisor ms = maxPopularity ms := by
      unfold popDivisor
      rw [if_neg (ne_of_gt hmax_pos)]
    constructor
    · intro m hm
      unfold normalizedPop
      rw [hdiv, div_le_one hmax_pos, maxPopularity_eq_maxPopFrom]
      exact le_maxPopFrom_mem ms 0 m hm
    · rcases maxPopFrom_cases ms 0 with h | ⟨m, hm, h⟩
      · rw [maxPopularity_eq_maxPopFrom, h] at hmax_pos
        exact absurd hmax_pos (lt_irrefl 0)
      · refine ⟨m, hm, ?_⟩
        unfold normalizedPop
        rw [hdiv, maxPopularity_eq_maxPopFrom, h]
        refine div_self ?_
        rw [maxPopularity_eq_maxPopFrom, h] at hmax_pos
        exact ne_of_gt hmax_pos
  · intro hall
    have hz : maxPopularity ms = 0 := by
      rw [maxPopularity_eq_maxPopFrom]
      exact maxPopFrom_all_zero ms hall
    have hdiv : popDivisor ms = 1 := by
      unfold popDivisor
      rw [if_pos hz]
    refine ⟨hdiv, ?_⟩
    intro m hm
    unfold normalizedPop
    rw [hdiv, hall m hm]
    norm_num

/-- C9 witness: normalization on a pool with popularities 3 and 0, and on
an all-zero pool. -/
theorem popularity_normalization_spec_witness :
    ((∀ m ∈ [c9movieA, c9movieB], normalizedPop [c9movieA, c9movieB] m ≤ 1) ∧
      ∃ m ∈ [c9movieA, c9movieB], normalizedPop [c9movieA, c9movieB] m = 1) ∧
    (popDivisor [c9movieB] = 1 ∧ ∀ m ∈ [c9movieB], normalizedPop [c9movieB] m = 0) := by
  constructor
  · exact (popularity_normalization_spec [c9movieA, c9movieB]).1
      ⟨c9movieA, by simp, by norm_num [c9movieA]⟩
  · exact (popularity_normalization_spec [c9movieB]).2
      (by intro m hm; simp at hm; rw [hm]; rfl)

/-- C5: a successful pool fetch returns exactly one candidate per item of
each processed page, in order: the pool is the concatenation of the
per-page item lists mapped through detail-or-fallback, the per-page
candidate count equals the item count, a failed detail fetch yields the
summary-only fallback (empty genres, zero duration), and a successful one
yields the fetched detail. -/
theorem fetch_pool_per_item_spec (env : CatalogEnv) (pages : ℕ) (res : List MovieDetail)
    (h : fetchMovies env pages = Except.ok res) :
    res = ((processedPages env pages 1).map
            (fun items => items.map (detailOrFallback env))).flatten ∧
    (∀ items : List MovieListItem, (items.map (detailOrFallback env)).length = items.length) ∧
    (∀ item : MovieListItem, ∀ e : String, env.detailResult item.id = Except.error e →
      detailOrFallback env item =
        { id := item.id, title := item.title, overview := "", releaseDate := item.releaseDate,
          genres := [], language := "", duration := 0, popularity := item.popularity,
          posterUrl := item.posterUrl, backdropUrl := "" }) ∧
    (∀ item : MovieListItem, ∀ d : MovieDetail, env.detailResult item.id = Except.ok d →
      detailOrFallback env item = d) := by
  refine ⟨?_, ?_, ?_, ?_⟩
  · simpa using fetchMoviesAux_eq_processedPages env pages 1 [] res h
  · intro items
    exact List.length_map items _
  · intro item e he
    unfold detailOrFallback
    rw [he]
  · intro item d hd
    unfold detailOrFallback
    rw [hd]

/-- C5 witness: a two-item page where the detail fetch fails for the second
item; the pool still has both items, the second as the summary fallback. -/
theorem fetch_pool_per_item_spec_witness :
    ([{ id := 1, title := "first", overview := "o", releaseDate := "2024-01-01",
        genres := ["Action", "Drama"], language := "en", duration := 120,
        popularity := 8, posterUrl := "p1", backdropUrl := "b1" },
      { id := 2, title := "second", overview := "", releaseDate := "2023-01-01",
        genres := [], language := "", duration := 0, popularity := 6,
        posterUrl := "p2", backdropUrl := "" }] : List MovieDetail) =
      ((processedPages c5env 3 1).map
        (fun items => items.map (detailOrFallback c5env))).flatten ∧
    (∀ items : List MovieListItem,
      (items.map (detailOrFallback c5env)).length = items.length) ∧
    (∀ item : MovieListItem, ∀ e : String, c5env.detailResult item.id = Except.error e →
      detailOrFallback c5env item =
        { id := item.id, title := item.title, overview := "", releaseDate := item.releaseDate,
          genres := [], language := "", duration := 0, popularity := item.popularity,
          posterUrl := item.posterUrl, backdropUrl := "" }) ∧
    (∀ item : MovieListItem, ∀ d : MovieDetail, c5env.detailResult item.id = Except.ok d →
      detailOrFallback c5env item = d) :=
  fetch_pool_per_item_spec c5env 3 _ (by rfl)

/-- C2: on a cache miss, a page-level catalog failure aborts the request
with an error, and neither a cache write nor a snapshot write occurs: the
cache and snapshot stores are left unchanged. -/
theorem catalog_failure_aborts_spec (env : Env) (u l : Int) (e : String)
    (hmiss : cacheMiss env u l) (hf : fetchMovies env.catalog 3 = Except.error e) :
    (GetRecommendations env u l).1 = Except.error ("fetch movies: " ++ e) ∧
    (GetRecommendations env u l).2.cacheWrite = none ∧
    (GetRecommendations env u l).2.snapshotWrite = none ∧
    (∀ cst : List (String × String), applyCacheWrite cst (GetRecommendations env u l).2 = cst) ∧
    (∀ sst : List SnapshotRow, applySnapshotWrite sst (GetRecommendations env u l).2 = sst) := by
  have hres : GetRecommendations env u l =
      (Except.error ("fetch movies: " ++ e),
       { noEffects with calledPrefs := true, calledCatalog := true }) := by
    unfold GetRecommendations
    dsimp only
    unfold cacheMiss at hmiss
    cases hcg : env.cacheGet (cacheKeyFor u l) with
    | none =>
      try dsimp only
      rw [hf]
      try rfl
    | some s =>
      rw [hcg] at hmiss
      dsimp only at hmiss
      try dsimp only
      rw [hmiss]
      try dsimp only
      rw [hf]
      try rfl
  rw [hres]
  exact ⟨rfl, rfl, rfl, fun cst => rfl, fun sst => rfl⟩

/-- C2 witness: a request against an environment whose catalog list fetch
fails, with an empty cache. -/
theorem catalog_failure_aborts_spec_witness :
    (GetRecommendations c2env 1 10).1 =
      Except.error ("fetch movies: " ++ "movie-service returned 500") ∧
    (GetRecommendations c2env 1 10).2.cacheWrite = none ∧
    (GetRecommendations c2env 1 10).2.snapshotWrite = none ∧
    applyCacheWrite [("k", "v")] (GetRecommendations c2env 1 10).2 = [("k", "v")] ∧
    applySnapshotWrite [{ userId := 1, movieId := 5, score := 1 }]
      (GetRecommendations c2env 1 10).2 = [{ userId := 1, movieId := 5, score := 1 }] := by
  have h := catalog_failure_aborts_spec c2env 1 10 "movie-service returned 500"
    (by trivial) (by rfl)
  exact ⟨h.1, h.2.1, h.2.2.1, h.2.2.2.1 [("k", "v")],
         h.2.2.2.2 [{ userId := 1, movieId := 5, score := 1 }]⟩

/-- C3: when the cache holds a deserializable entry for the request's key,
the service returns exactly the deserialized response and performs no
upstream preference call, no catalog call, no rule-store read, no cache
write and no snapshot write: both stores are left unchanged. -/
theorem cache_hit_frame_spec (env : Env) (u l : Int) (s : String)
    (r : RecommendationResponse)
    (hs : env.cacheGet (cacheKeyFor u l) = some s) (hd : env.decodeResp s = some r) :
    GetRecommendations env u l = (Except.ok r, noEffects) ∧
    (GetRecommendations env u l).2.calledPrefs = false ∧
    (GetRecommendations env u l).2.calledCatalog = false ∧
    (GetRecommendations env u l).2.calledRules = false ∧
    (GetRecommendations env u l).2.cacheWrite = none ∧
    (GetRecommendations env u l).2.snapshotWrite = none ∧
    (∀ cst : List (String × String), applyCacheWrite cst (GetRecommendations env u l).2 = cst) ∧
    (∀ sst : List SnapshotRow, applySnapshotWrite sst (GetRecommendations env u l).2 = sst) := by
  have hres : GetRecommendations env u l = (Except.ok r, noEffects) := by
    unfold GetRecommendations
    dsimp only
    rw [hs]
    dsimp only
    rw [hd]
  rw [hres]
  exact ⟨rfl, rfl, rfl, rfl, rfl, rfl, fun cst => rfl, fun sst => rfl⟩

/-- C3 witness: a cache hit against an environment where every upstream
collaborator would fail if consulted; the cached response is returned
unchanged and no effect occurs. -/
theorem cache_hit_frame_spec_witness :
    GetRecommendations c3env 1 10 = (Except.ok c3resp, noEffects) ∧
    (GetRecommendations c3env 1 10).2.calledPrefs = false ∧
    (GetRecommendations c3env 1 10).2.calledCatalog = false ∧
    (GetRecommendations c3env 1 10).2.calledRules = false ∧
    (GetRecommendations c3env 1 10).2.cacheWrite = none ∧
    (GetRecommendations c3env 1 10).2.snapshotWrite = none ∧
    applyCacheWrite [] (GetRecommendations c3env 1 10).2 = [] ∧
    applySnapshotWrite [] (GetRecommendations c3env 1 10).2 = [] := by
  have h := cache_hit_frame_spec c3env 1 10 "cached-blob" c3resp (by rfl) (by rfl)
  exact ⟨h.1, h.2.1, h.2.2.1, h.2.2.2.1, h.2.2.2.2.1, h.2.2.2.2.2.1,
         h.2.2.2.2.2.2.1 [], h.2.2.2.2.2.2.2 []⟩

/-- C10: on a cache miss with a non-empty candidate pool, a failing
rule-store read aborts the request with an error before any cache or
snapshot write: rule-store failure is fatal like a catalog page failure,
not degraded like a preference failure. -/
theorem rules_failure_aborts_spec (env : Env) (u l : Int) (e : String)
    (ms : List MovieDetail)
    (hmiss : cacheMiss env u l) (hm : fetchMovies env.catalog 3 = Except.ok ms)
    (hne : ms ≠ []) (hr : env.rulesResult = Except.error e) :
    (GetRecommendations env u l).1 = Except.error ("get rules: " ++ e) ∧
    (GetRecommendations env u l).2.cacheWrite = none ∧
    (GetRecommendations env u l).2.snapshotWrite = none ∧
    (∀ cst : List (String × String), applyCacheWrite cst (GetRecommendations env u l).2 = cst) ∧
    (∀ sst : List SnapshotRow, applySnapshotWrite sst (GetRecommendations env u l).2 = sst) := by
  have hempty : ms.isEmpty = false := by
    cases ms with
    | nil => exact absurd rfl hne
    | cons x xs => rfl
  have hres : GetRecommendations env u l =
      (Except.error ("get rules: " ++ e),
       { noEffects with calledPrefs := true, calledCatalog := true,
                        calledRules := true }) := by
    unfold GetRecommendations
    dsimp only
    unfold cacheMiss at hmiss
    cases hcg : env.cacheGet (cacheKeyFor u l) with
    | none =>
      try dsimp only
      rw [hm]
      try dsimp only
      rw [hempty]
      try dsimp only
      rw [hr]
      try rfl
    | some s =>
      rw [hcg] at hmiss
      dsimp only at hmiss
      try dsimp only
      rw [hmiss]
      try dsimp only
      rw [hm]
      try dsimp only
      rw [hempty]
      try dsimp only
      rw [hr]
      try rfl
  rw [hres]
  exact ⟨rfl, rfl, rfl, fun cst => rfl, fun sst => rfl⟩

/-- C10 witness: a cache miss with a one-movie pool and a failing rule
store. -/
theorem rules_failure_aborts_spec_witness :
    (GetRecommendations c10env 1 10).1 =
      Except.error ("get rules: " ++ "query active rules: connection refused") ∧
    (GetRecommendations c10env 1 10).2.cacheWrite = none ∧
    (GetRecommendations c10env 1 10).2.snapshotWrite = none ∧
    applyCacheWrite [] (GetRecommendations c10env 1 10).2 = [] ∧
    applySnapshotWrite [] (GetRecommendations c10env 1 10).2 = [] := by
  have h := rules_failure_aborts_spec c10env 1 10 "query active rules: connection refused"
    _ (by trivial) (by rfl) (by decide) (by rfl)
  exact ⟨h.1, h.2.1, h.2.2.1, h.2.2.2.1 [], h.2.2.2.2 []⟩

/-- C4: on a cache miss where the preference fetch fails but the catalog
returns a non-empty pool (and the rule read succeeds, with a limit of at
least 1), the request still succeeds: it behaves exactly as if the default
empty-genre profile had been fetched, returns the ranked non-empty
truncation of the sorted scored pool, and the genre-match component
contributes nothing — scoring with the default profile coincides with
scoring without any genre_match rule. -/
theorem pref_failure_degrades_spec (env : Env) (u l : Int) (e : String)
    (ms : List MovieDetail) (rules : List RecommendationRule)
    (hmiss : cacheMiss env u l) (hp : env.prefsResult = Except.error e)
    (hm : fetchMovies env.catalog 3 = Except.ok ms) (hne : ms ≠ [])
    (hr : env.rulesResult = Except.ok rules) (hl : 1 ≤ l) :
    (GetRecommendations env u l).1 =
      (GetRecommendations (setPrefs env (Except.ok (defaultPrefs u))) u l).1 ∧
    (GetRecommendations env u l).1 =
      Except.ok
        { userId := u
          recommendations := truncateGo l (goSortSlice recLess
            (scoreMovies env.daysSinceOf ms (defaultPrefs u) rules))
          generatedAt := env.nowStr } ∧
    truncateGo l (goSortSlice recLess
      (scoreMovies env.daysSinceOf ms (defaultPrefs u) rules)) ≠ [] ∧
    scoreMovies env.daysSinceOf ms (defaultPrefs u) rules =
      scoreMovies env.daysSinceOf ms (defaultPrefs u) (genreFilter rules) := by
  have hempty : ms.isEmpty = false := by
    cases ms with
    | nil => exact absurd rfl hne
    | cons x xs => rfl
  have hreduce : ∀ env' : Env, env'.cacheGet = env.cacheGet →
      env'.decodeResp = env.decodeResp → env'.encodeResp = env.encodeResp →
      env'.catalog = env.catalog → env'.rulesResult = env.rulesResult →
      env'.nowStr = env.nowStr → env'.daysSinceOf = env.daysSinceOf →
      (match env'.prefsResult with
        | Except.ok p => p
        | Except.error _ => defaultPrefs u) = defaultPrefs u →
      (GetRecommendations env' u l).1 =
        Except.ok
          { userId := u
            recommendations := truncateGo l (goSortSlice recLess
              (scoreMovies env.daysSinceOf ms (defaultPrefs u) rules))
            generatedAt := env.nowStr } := by
    intro env' hc hdc henc hcat hrules hnow hdays hprefs
    unfold GetRecommendations
    dsimp only
    unfold cacheMiss at hmiss
    rw [hc, hdc, henc, hcat, hrules, hnow, hdays]
    cases hcg : env.cacheGet (cacheKeyFor u l) with
    | none =>
      try dsimp only
      rw [hprefs, hm]
      try dsimp only
      rw [hempty]
      try dsimp only
      rw [hr]
      try rfl
    | some s =>
      rw [hcg] at hmiss
      dsimp only at hmiss
      try dsimp only
      rw [hmiss]
      try dsimp only
      rw [hprefs, hm]
      try dsimp only
      rw [hempty]
      try dsimp only
      rw [hr]
      try rfl
  have h1 := hreduce env rfl rfl rfl rfl rfl rfl rfl (by rw [hp])
  have h2 := hreduce (setPrefs env (Except.ok (defaultPrefs u))) rfl rfl rfl rfl rfl rfl rfl rfl
  refine ⟨h1.trans h2.symm, h1, ?_, ?_⟩
  · refine truncateGo_ne_nil l _ ?_ hl
    intro hcon
    have := congrArg List.length hcon
    rw [goSortSlice_length, scoreMovies_length] at this
    simp only [List.length_nil] at this
    exact hne (List.length_eq_zero.mp this)
  · exact scoreMovies_no_prefs env.daysSinceOf ms (defaultPrefs u) rules rfl

/-- C4 witness: preference fetch fails with HTTP 500, the catalog returns a
one-movie pool, one popularity rule is active; the request succeeds with a
non-empty ranked response. -/
theorem pref_failure_degrades_spec_witness :
    (GetRecommendations c4env 1 10).1 =
      (GetRecommendations (setPrefs c4env (Except.ok (defaultPrefs 1))) 1 10).1 ∧
    (GetRecommendations c4env 1 10).1 =
      Except.ok
        { userId := 1
          recommendations := truncateGo 10 (goSortSlice recLess
            (scoreMovies c4env.daysSinceOf [c4movie] (defaultPrefs 1)
              [{ id := 1, name := "Popularity", weight := 1/2, ruleType := "popularity",
                 isActive := true }]))
          generatedAt := c4env.nowStr } ∧
    truncateGo 10 (goSortSlice recLess
      (scoreMovies c4env.daysSinceOf [c4movie] (defaultPrefs 1)
        [{ id := 1, name := "Popularity", weight := 1/2, ruleType := "popularity",
           isActive := true }])) ≠ [] ∧
    scoreMovies c4env.daysSinceOf [c4movie] (defaultPrefs 1)
        [{ id := 1, name := "Popularity", weight := 1/2, ruleType := "popularity",
           isActive := true }] =
      scoreMovies c4env.daysSinceOf [c4movie] (defaultPrefs 1)
        (genreFilter [{ id := 1, name := "Popularity", weight := 1/2,
                        ruleType := "popularity", isActive := true }]) :=
  pref_failure_degrades_spec c4env 1 10 "user-preference-service returned 500"
    [c4movie] _ (by trivial) (by rfl) (by rfl) (by decide) (by rfl) (by norm_num)

/-- C1 (refuted on the code): `GetRecommendations` sorts with Go
`sort.Slice`, whose pattern-defeating quicksort is not stable.  On a
concrete 13-movie pool with one active popularity rule (weight 1), the
movies with ids 2 and 5 have equal popularity 4, hence equal computed score
1111/2500; id 2 precedes id 5 in the input pool, yet the ranked output
places id 5 before id 2 (and likewise reorders the equal-score
pop-9 group 1,3,4,6,8,11 to 1,11,3,4,8,6), contradicting the claimed
stable-sort property.  The output is still sorted by score descending. -/
theorem sortSlice_instability_eval :
    c1pool.map (fun m => m.id) = [1, 2, 3, 4, 5, 6, 7, 8, 9, 10, 11, 12, 13] ∧
    c1output.map (fun r => r.id) = [1, 11, 3, 4, 8, 6, 7, 5, 2, 9, 10, 12, 13] ∧
    (c1output.find? (fun r => r.id == 2)).map (fun r => r.score) = some (1111/2500) ∧
    (c1output.find? (fun r => r.id == 5)).map (fun r => r.score) = some (1111/2500) ∧
    List.indexOf (5 : Int) (c1pool.map (fun m => m.id)) >
      List.indexOf (2 : Int) (c1pool.map (fun m => m.id)) ∧
    List.indexOf (5 : Int) (c1output.map (fun r => r.id)) <
      List.indexOf (2 : Int) (c1output.map (fun r => r.id)) := by
  exact ⟨by decide, by decide, by decide, by decide, by decide, by decide⟩

end MovieRec
